import Mathlib

/-!
Verification of the reducer-driven state container (timers context) and the
Redux cart slice of the repository, as a shallow embedding in Lean 4.
TypeScript strings become `String`, booleans become `Bool`, arrays become
`List`, TypeScript numbers that are only stored or changed by plus or minus
one become `Int`, and code that can throw returns `Except String`.
-/

namespace TimersContext

/-- A timer record, `type Timer = \x7b name: string; duration: number \x7d`. -/
structure Timer where
  name : String
  duration : Int
deriving DecidableEq

/-- The container state, `type TimersState = \x7b isRunning: boolean; timers: Timer[] \x7d`. -/
structure TimersState where
  isRunning : Bool
  timers : List Timer
deriving DecidableEq

/-- The tagged action union `Action = StartTimersAction | StopTimersAction | AddTimersAction`,
discriminated on the string field `type`. The extra constructor `UNKNOWN` stands for
an action value whose `type` string is none of the three recognized tags; such a
value reaches the final `return state` fallback of `timersReducer`. -/
inductive Action where
  | START_TIMERS : Action
  | STOP_TIMERS : Action
  | ADD_TIMER (payload : Timer) : Action
  | UNKNOWN : Action
deriving DecidableEq

/-- `timersReducer(state, action)` from `timers-context.tsx`: the if-chain on
`action.type` with the trailing `return state` fallback. -/
def timersReducer (state : TimersState) (action : Action) : TimersState :=
  match action with
  | .START_TIMERS => { state with isRunning := true }
  | .STOP_TIMERS => { state with isRunning := false }
  | .ADD_TIMER payload =>
      { state with
        timers := state.timers ++ [{ name := payload.name, duration := payload.duration }] }
  | .UNKNOWN => state

/-- `const initialState: TimersState = \x7b isRunning: true, timers: [] \x7d`. -/
def initialState : TimersState :=
  { isRunning := true, timers := [] }

/-- The context value `TimersContextValue = TimersState & \x7b addTimer; startTimers; stopTimers \x7d`.
Each operation closure only dispatches a single action, so an operation is
embedded as the action it dispatches. -/
structure TimersContextValue where
  timers : List Timer
  isRunning : Bool
  addTimer : Timer → Action
  startTimers : Action
  stopTimers : Action

/-- The `ctx` object built inside `TimersContextProvider`: it exposes the current
reducer state and closures that dispatch exactly one action each. -/
def mkTimersContextValue (timersState : TimersState) : TimersContextValue :=
  { timers := timersState.timers
    isRunning := timersState.isRunning
    addTimer := fun timerData => Action.ADD_TIMER timerData
    startTimers := Action.START_TIMERS
    stopTimers := Action.STOP_TIMERS }

/-- `useTimersContext()`: reads the looked-up context value and throws
`Error("TimersContext is null - that should not be the case!")` when it is `null`. -/
def useTimersContext (timersCtx : Option TimersContextValue) : Except String TimersContextValue :=
  match timersCtx with
  | none => Except.error "TimersContext is null - that should not be the case!"
  | some v => Except.ok v

/-- The click handler the `Header` component wires to its button:
`timersCtx.isRunning ? timersCtx.startTimers : timersCtx.stopTimers`,
embedded as the action the chosen closure dispatches. -/
def headerClickHandler (timersCtx : TimersContextValue) : Action :=
  if timersCtx.isRunning then timersCtx.startTimers else timersCtx.stopTimers

/-- The label the `Header` component renders on its button:
`\x7btimersCtx.isRunning ? "Stop" : "Start"\x7d Timers`. -/
def headerButtonLabel (timersCtx : TimersContextValue) : String :=
  (if timersCtx.isRunning then "Stop" else "Start") ++ " Timers"

/-- Folding the reducer over a sequence of actions from an initial state. -/
def runActions (start : TimersState) (actions : List Action) : TimersState :=
  actions.foldl timersReducer start

/-- The intent operations the provider exposes to consumers. -/
inductive Op where
  | addTimer (timerData : Timer) : Op
  | startTimers : Op
  | stopTimers : Op
deriving DecidableEq

/-- The single action an exposed context operation dispatches, read off the
context value the provider builds for the current state. -/
def ctxAction (ctx : TimersContextValue) : Op → Action
  | .addTimer timerData => ctx.addTimer timerData
  | .startTimers => ctx.startTimers
  | .stopTimers => ctx.stopTimers

/-- One provider update: the dispatched action goes through `timersReducer`
(`useReducer(timersReducer, initialState)`); nothing else touches the state. -/
def applyOp (s : TimersState) (op : Op) : TimersState :=
  timersReducer s (ctxAction (mkTimersContextValue s) op)

/-- The provider state after a sequence of exposed operations, starting from
`initialState`. -/
def providerRun (ops : List Op) : TimersState :=
  ops.foldl applyOp initialState

/-- The step relation of the container: one reducer application. -/
def timersStep (s s' : TimersState) : Prop :=
  ∃ a : Action, s' = timersReducer s a

/-- Modelled from the spec: the container's `subscribe(listener) -> unsubscribe()`
plumbing is not in the sources (there the host framework re-renders consumers);
section 4.1 of the spec defines it. A container holds the current state and the
registered listener ids in insertion order; `nextId` supplies fresh ids. -/
structure Container where
  state : TimersState
  listeners : List Nat
  nextId : Nat
deriving DecidableEq

/-- Modelled from the spec: construction with one required input `initialState`. -/
def Container.make (s : TimersState) : Container :=
  { state := s, listeners := [], nextId := 0 }

/-- Modelled from the spec: `subscribe(listener)` registers a callback and returns
a capability (here: the fresh listener id) to unsubscribe; notification order
among listeners is insertion order, so the id is appended at the end. -/
def Container.subscribe (c : Container) : Container × Nat :=
  ({ c with listeners := c.listeners ++ [c.nextId], nextId := c.nextId + 1 }, c.nextId)

/-- Modelled from the spec: the unsubscribe capability removes the listener. -/
def Container.unsubscribe (c : Container) (id : Nat) : Container :=
  { c with listeners := c.listeners.erase id }

/-- Modelled from the spec: `dispatch(action)` applies the transition function to
(current state, action), replaces the state, and synchronously notifies every
subscriber with the new state, in insertion order. The returned list is the
sequence of notifications delivered: (listener id, state it receives). -/
def Container.dispatch (c : Container) (a : Action) : Container × List (Nat × TimersState) :=
  let newState := timersReducer c.state a
  ({ c with state := newState }, c.listeners.map fun id => (id, newState))

end TimersContext

namespace cartSlice

/-- A cart entry, `type CartItem = \x7b id; title; price; quantity \x7d`. -/
structure CartItem where
  id : String
  title : String
  price : Int
  quantity : Int
deriving DecidableEq

/-- `type CartState = \x7b items: CartItem[] \x7d`. -/
structure CartState where
  items : List CartItem
deriving DecidableEq

/-- `const initialState: CartState = \x7b items: [] \x7d`. -/
def initialState : CartState :=
  { items := [] }

/-- The payload of `addToCart`: `\x7b id: string; title: string; price: number \x7d`. -/
structure NewCartItem where
  id : String
  title : String
  price : Int
deriving DecidableEq

/-- JavaScript `Array.prototype.findIndex`: index of the first element satisfying
the predicate, and `-1` when none does. -/
def jsFindIndex {α : Type} (p : α → Bool) : List α → Int
  | [] => -1
  | x :: rest =>
      if p x then 0
      else
        let i := jsFindIndex p rest
        if i = -1 then -1 else i + 1

/-- JavaScript array indexing `items[i]`: `undefined` (here `none`) for a negative
or out-of-range index. -/
def jsGet {α : Type} (l : List α) (i : Int) : Option α :=
  if i < 0 then none else l.get? i.toNat

/-- The `TypeError` raised when `state.items[-1].quantity` is read: property access
on `undefined`. -/
def undefinedQuantityMsg : String :=
  "TypeError: Cannot read properties of undefined (reading quantity)"

/-- `addToCart(state, action)` from the cart slice: find the index of the payload
id; when `itemIndex >= 0` increment that item's quantity, otherwise push a new
item with quantity 1. -/
def addToCart (state : CartState) (payload : NewCartItem) : CartState :=
  let itemIndex := jsFindIndex (fun item => item.id == payload.id) state.items
  if itemIndex ≥ 0 then
    match jsGet state.items itemIndex with
    | some item =>
        { items := state.items.set itemIndex.toNat { item with quantity := item.quantity + 1 } }
    | none => state
  else
    { items :=
        state.items ++
          [{ id := payload.id, title := payload.title, price := payload.price, quantity := 1 }] }

/-- `removeFromCart(state, action)` from the cart slice: find the index of the
payload id and, with no `-1` guard, read `state.items[itemIndex].quantity`;
when the id is absent this reads a property of `undefined` and throws. When the
quantity is 1 the item is spliced out, otherwise the quantity is decremented. -/
def removeFromCart (state : CartState) (payload : String) : Except String CartState :=
  let itemIndex := jsFindIndex (fun item => item.id == payload) state.items
  match jsGet state.items itemIndex with
  | none => Except.error undefinedQuantityMsg
  | some item =>
      if item.quantity = 1 then
        Except.ok { items := state.items.eraseIdx itemIndex.toNat }
      else
        Except.ok { items := state.items.set itemIndex.toNat { item with quantity := item.quantity - 1 } }

end cartSlice

namespace TimersContext

/-- C1: for every state and every `ADD_TIMER` action, the reducer returns the state
with exactly the given timer appended at the end (prior order preserved, nothing
else changed) and the run-flag unchanged; in particular adding `(a, 5)` to empty
items yields `[(a, 5)]` and then adding `(b, 3)` yields `[(a, 5), (b, 3)]`. -/
theorem addTimer_appends :
    ∀ (s : TimersState) (item : Timer),
      timersReducer s (Action.ADD_TIMER item) = { s with timers := s.timers ++ [item] } ∧
      (∀ b : Bool,
        timersReducer ⟨b, []⟩ (Action.ADD_TIMER ⟨"a", 5⟩) = ⟨b, [⟨"a", 5⟩]⟩ ∧
        timersReducer ⟨b, [⟨"a", 5⟩]⟩ (Action.ADD_TIMER ⟨"b", 3⟩) =
          ⟨b, [⟨"a", 5⟩, ⟨"b", 3⟩]⟩) :=
  fun _ _ => ⟨rfl, fun _ => ⟨rfl, rfl⟩⟩

/-- C2: for every state, `START_TIMERS` sets the run-flag to `true` and
`STOP_TIMERS` sets it to `false`, both leaving the timers sequence unchanged,
regardless of the prior run-flag value. -/
theorem start_stop_spec :
    ∀ s : TimersState,
      timersReducer s Action.START_TIMERS = { s with isRunning := true } ∧
      timersReducer s Action.STOP_TIMERS = { s with isRunning := false } :=
  fun _ => ⟨rfl, rfl⟩

/-- C3: the reducer is total — every state and action, the unrecognized kind
included, yields a result state — and an unrecognized action returns the prior
state itself. -/
theorem reducer_total_and_unknown_identity :
    (∀ (s : TimersState) (a : Action), ∃ t : TimersState, timersReducer s a = t) ∧
    (∀ s : TimersState, timersReducer s Action.UNKNOWN = s) :=
  ⟨fun s a => ⟨timersReducer s a, rfl⟩, fun _ => rfl⟩

/-- C4: `useTimersContext` throws the labeled initialization error exactly when
the looked-up context value is `null`, and otherwise returns the value
unchanged. -/
theorem useTimersContext_spec :
    useTimersContext none =
      Except.error "TimersContext is null - that should not be the case!" ∧
    ∀ v : TimersContextValue, useTimersContext (some v) = Except.ok v :=
  ⟨rfl, fun _ => rfl⟩

/-- C5: the reducer is deterministic and pure — folding it over the same action
sequence from the same initial state yields the same final state in any two
runs. -/
theorem replay_deterministic (start : TimersState) (actions : List Action)
    (s₁ s₂ : TimersState) (h₁ : runActions start actions = s₁)
    (h₂ : runActions start actions = s₂) : s₁ = s₂ :=
  h₁ ▸ h₂ ▸ rfl

/-- Witness for C5 at a concrete run. -/
theorem replay_deterministic_witness :
    runActions initialState [Action.STOP_TIMERS] = ⟨false, []⟩ ∧
    (⟨false, []⟩ : TimersState) = ⟨false, []⟩ :=
  ⟨rfl, replay_deterministic initialState [Action.STOP_TIMERS] ⟨false, []⟩ ⟨false, []⟩ rfl rfl⟩

/-- C8: the fixed initial state has the run-flag `true` and no timers. -/
theorem initialState_running_and_empty :
    initialState.isRunning = true ∧ initialState.timers = [] :=
  ⟨rfl, rfl⟩

/-- C9: on the context value the provider builds, the `Header` button dispatches
the opposite of its label — when the run-flag is `true` the label reads
"Stop Timers" but the handler is `startTimers` (dispatching `START_TIMERS`),
and when it is `false` the label reads "Start Timers" but the handler is
`stopTimers` (dispatching `STOP_TIMERS`). -/
theorem header_label_opposite (ts : TimersState) :
    (ts.isRunning = true →
      headerClickHandler (mkTimersContextValue ts) = Action.START_TIMERS ∧
      headerButtonLabel (mkTimersContextValue ts) = "Stop Timers") ∧
    (ts.isRunning = false →
      headerClickHandler (mkTimersContextValue ts) = Action.STOP_TIMERS ∧
      headerButtonLabel (mkTimersContextValue ts) = "Start Timers") := by
  constructor <;> intro h <;>
    simp [headerClickHandler, headerButtonLabel, mkTimersContextValue, h]

/-- Witness for C9 at the initial state, whose run-flag is `true`. -/
theorem header_label_opposite_witness :
    initialState.isRunning = true ∧
    headerClickHandler (mkTimersContextValue initialState) = Action.START_TIMERS ∧
    headerButtonLabel (mkTimersContextValue initialState) = "Stop Timers" :=
  ⟨rfl, (header_label_opposite initialState).1 rfl⟩

/-- One exposed operation steps the state by exactly one reducer application. -/
theorem step_applyOp (s : TimersState) (op : Op) : timersStep s (applyOp s op) :=
  ⟨ctxAction (mkTimersContextValue s) op, rfl⟩

/-- Folding exposed operations stays inside the reflexive-transitive closure of
the step relation. -/
theorem reachable_foldl (ops : List Op) :
    ∀ s : TimersState, Relation.ReflTransGen timersStep s (ops.foldl applyOp s) := by
  induction ops with
  | nil => intro s; exact Relation.ReflTransGen.refl
  | cons op rest ih =>
      intro s
      exact Relation.ReflTransGen.trans
        (Relation.ReflTransGen.single (step_applyOp s op)) (ih (applyOp s op))

/-- Projecting the listener ids back out of a delivery sequence. -/
theorem map_fst_pair (l : List Nat) (s : TimersState) :
    (l.map fun i => (i, s)).map Prod.fst = l := by
  induction l with
  | nil => rfl
  | cons x rest ih => simp only [List.map_cons, ih]

/-- C7: on a dispatch, the delivered sequence pairs each currently registered
listener, in registration order, with the new state; a registered listener id
receives exactly one such delivery, and an id whose unsubscribe capability was
used before the dispatch receives none. -/
theorem dispatch_notifies (c : Container) (a : Action) (id : Nat)
    (hnd : c.listeners.Nodup) (hmem : id ∈ c.listeners) :
    (c.dispatch a).2 = c.listeners.map (fun i => (i, timersReducer c.state a)) ∧
    ((c.dispatch a).2.map Prod.fst).count id = 1 ∧
    (((c.unsubscribe id).dispatch a).2.map Prod.fst).count id = 0 := by
  refine ⟨rfl, ?_, ?_⟩
  · have hfst : (c.dispatch a).2.map Prod.fst = c.listeners :=
      map_fst_pair c.listeners (timersReducer c.state a)
    rw [hfst]
    exact List.count_eq_one_of_mem hnd hmem
  · have hfst : ((c.unsubscribe id).dispatch a).2.map Prod.fst = c.listeners.erase id :=
      map_fst_pair (c.listeners.erase id) (timersReducer c.state a)
    rw [hfst]
    exact List.count_eq_zero.mpr fun hmem2 => ((hnd.mem_erase_iff).1 hmem2).1 rfl

/-- Witness for C7 on a container with listeners 0 and 1. -/
theorem dispatch_notifies_witness :
    (Container.mk initialState [0, 1] 2).listeners.Nodup ∧
    0 ∈ (Container.mk initialState [0, 1] 2).listeners ∧
    (((Container.mk initialState [0, 1] 2).dispatch Action.START_TIMERS).2.map
        Prod.fst).count 0 = 1 :=
  ⟨by decide, by decide,
    (dispatch_notifies (Container.mk initialState [0, 1] 2) Action.START_TIMERS 0
        (by decide) (by decide)).2.1⟩

/-- C6: every state the provider ever holds is reached from the fixed initial
state by a chain of single-action reducer applications — each exposed operation
(`addTimer`, `startTimers`, `stopTimers`) only dispatches one action through the
reducer, so every run of operations lands in the reflexive-transitive closure of
the step relation. -/
theorem provider_states_reachable (ops : List Op) :
    Relation.ReflTransGen timersStep initialState (providerRun ops) :=
  reachable_foldl ops initialState

end TimersContext

namespace cartSlice

/-- When no element satisfies the predicate, `findIndex` yields `-1`. -/
theorem jsFindIndex_eq_neg_one {α : Type} (p : α → Bool) (l : List α)
    (h : ∀ x ∈ l, p x = false) : jsFindIndex p l = -1 := by
  induction l with
  | nil => rfl
  | cons x rest ih =>
      have hx : p x = false := h x (List.mem_cons_self x rest)
      have hr : jsFindIndex p rest = -1 := ih fun y hy => h y (List.mem_cons_of_mem x hy)
      simp [jsFindIndex, hx, hr]

/-- C10: `removeFromCart` indexes the items with the unguarded result of
`findIndex`. When the id occurs at (first) index `n`, the item there is removed
when its quantity is 1 and its quantity is decremented otherwise; when the id is
absent, `findIndex` yields `-1`, reading `items[-1].quantity` faults with a
`TypeError` instead of leaving the state unchanged. `addToCart` guards its index
with `itemIndex >= 0`, so on both of its paths it returns normally: it increments
the quantity at a found index and appends a fresh item with quantity 1 for an
absent id. -/
theorem removeFromCart_unguarded_index (state : CartState) (pid : String)
    (np : NewCartItem) :
    ((∀ item ∈ state.items, (item.id == pid) = false) →
      removeFromCart state pid = Except.error undefinedQuantityMsg) ∧
    (∀ (n : Nat) (item : CartItem),
      jsFindIndex (fun it => it.id == pid) state.items = (n : Int) →
      jsGet state.items (n : Int) = some item →
      removeFromCart state pid =
        (if item.quantity = 1 then Except.ok { items := state.items.eraseIdx n }
         else
           Except.ok
             { items := state.items.set n { item with quantity := item.quantity - 1 } })) ∧
    ((∀ item ∈ state.items, (item.id == np.id) = false) →
      addToCart state np =
        { items :=
            state.items ++
              [{ id := np.id, title := np.title, price := np.price, quantity := 1 }] }) ∧
    (∀ (n : Nat) (item : CartItem),
      jsFindIndex (fun it => it.id == np.id) state.items = (n : Int) →
      jsGet state.items (n : Int) = some item →
      addToCart state np =
        { items := state.items.set n { item with quantity := item.quantity + 1 } }) := by
  refine ⟨?_, ?_, ?_, ?_⟩
  · intro habs
    have h1 : jsFindIndex (fun it => it.id == pid) state.items = -1 :=
      jsFindIndex_eq_neg_one _ _ habs
    simp only [removeFromCart, h1]
    rfl
  · intro n item hfind hget
    simp only [removeFromCart, hfind, hget, Int.toNat_natCast]
  · intro habs
    have h1 : jsFindIndex (fun it => it.id == np.id) state.items = -1 :=
      jsFindIndex_eq_neg_one _ _ habs
    simp only [addToCart, h1]
    rfl
  · intro n item hfind hget
    simp only [addToCart, hfind, hget, Int.toNat_natCast]
    rw [if_pos (show (n : Int) ≥ 0 from Int.natCast_nonneg n)]

/-- Witness for C10: removing id p2 from a cart holding only id p1 faults. -/
theorem removeFromCart_unguarded_index_witness :
    ([CartItem.mk "p1" "T" 10 1].all fun item => item.id != "p2") = true ∧
    removeFromCart (CartState.mk [CartItem.mk "p1" "T" 10 1]) "p2" =
      Except.error undefinedQuantityMsg :=
  ⟨by decide,
    (removeFromCart_unguarded_index (CartState.mk [CartItem.mk "p1" "T" 10 1]) "p2"
        (NewCartItem.mk "x" "y" 1)).1 (by decide)⟩

end cartSlice
